import Mathlib

/-!
Shallow embedding of the tjo-cloud-console reconciliation engine.

The Rust reconcilers (src/resources/postgresql/database.rs, user.rs,
src/resources/s3/bucket.rs, token.rs and src/garage.rs) are embedded as
pure functions.  Each external interaction (event publish, Kubernetes
get/patch, SQL execute, secret create, Garage HTTP call) is recorded in a
trace of `ExtCall` values, and its result is drawn from an explicit
environment `Env` that fixes the outcome of every external call.  A
reconcile or cleanup invocation therefore returns a pair: an outcome
(ok with a requeue action, an error, or a Rust panic) and the ordered
list of external calls it made.
-/

/-- Mirrors `Action` from kube runtime as used by the controllers:
either requeue after a number of seconds, or await change (terminal). -/
inductive KubeAction where
  | requeue (secs : Nat)
  | awaitChange
deriving Repr, DecidableEq

/-- Error type of src/garage.rs: a transport error or a non-success HTTP
status code. -/
inductive GarageError where
  | request
  | badStatusCode (code : Nat)
deriving Repr, DecidableEq

/-- The controller error enum from src/lib.rs (the variants reachable from
the embedded reconcilers). -/
inductive Error where
  | kubeError
  | postgresqlClientError
  | postgresqlIllegalDatabase
  | postgresqlIllegalUser
  | postgresqlUnknownServer
  | postgresqlUserAndDatabaseServerNotMatching
  | garageClientError (e : GarageError)
deriving Repr, DecidableEq

/-- Result of one reconcile/cleanup invocation: normal return, error
return, or a Rust panic (e.g. `Option::expect` on `None`). -/
inductive Outcome (α : Type) where
  | ok (a : α)
  | err (e : Error)
  | panicked (msg : String)
deriving Repr, DecidableEq

/-- `OwnerReference` carried in secret metadata (kind and name of the
owning object). -/
structure OwnerReference where
  kind : String
  name : String
deriving Repr, DecidableEq

/-- A Kubernetes `Secret` as built by user.rs and token.rs: name,
`immutable` flag, optional owner references, and the string data map
(as the insertion-ordered association list from the source). -/
structure SecretRecord where
  name : String
  immutable : Bool
  ownerReferences : Option (List OwnerReference)
  data : List (String × String)
deriving Repr, DecidableEq

/-- `BucketPermissions` from src/garage.rs. -/
structure BucketPermissions where
  owner : Bool
  read : Bool
  write : Bool
deriving Repr, DecidableEq

/-- `Bucket` response of the Garage CreateBucket call (src/garage.rs). -/
structure GarageBucket where
  id : String
deriving Repr, DecidableEq

/-- `Key` response of the Garage CreateKey call (src/garage.rs). -/
structure GarageKey where
  name : String
  id : String
  secret : String
deriving Repr, DecidableEq

/-- `UserRef` from user.rs. -/
structure UserRef where
  name : String
deriving Repr, DecidableEq

/-- `BucketRef` from bucket.rs. -/
structure BucketRef where
  name : String
deriving Repr, DecidableEq

/-- `DatabaseSpec` from database.rs. -/
structure DatabaseSpec where
  server : String
  connection_limit : Int
  owner_ref : UserRef
deriving Repr, DecidableEq

/-- `DatabaseStatus` from database.rs. -/
structure DatabaseStatus where
  created : Bool
  name : String
deriving Repr, DecidableEq

/-- The `Database` custom resource: namespace, metadata name, spec and
optional status. -/
structure Database where
  ns : String
  name_any : String
  spec : DatabaseSpec
  status : Option DatabaseStatus
deriving Repr, DecidableEq

/-- `UserSpec` from user.rs. -/
structure UserSpec where
  server : String
  password_secret_name : String
  connection_limit : Int
deriving Repr, DecidableEq

/-- `UserStatus` from user.rs. -/
structure UserStatus where
  created : Bool
  name : String
deriving Repr, DecidableEq

/-- The `User` custom resource. -/
structure User where
  ns : String
  name_any : String
  spec : UserSpec
  status : Option UserStatus
deriving Repr, DecidableEq

/-- `BucketSpec` from bucket.rs. -/
structure BucketSpec where
  name : String
deriving Repr, DecidableEq

/-- `BucketStatus` from bucket.rs. -/
structure BucketStatus where
  id : String
  created : Bool
deriving Repr, DecidableEq

/-- The `Bucket` custom resource. -/
structure Bucket where
  ns : String
  name_any : String
  spec : BucketSpec
  status : Option BucketStatus
deriving Repr, DecidableEq

/-- `TokenSpec` from token.rs. -/
structure TokenSpec where
  bucketRef : BucketRef
  tokenSecretName : String
  name : String
  reader : Bool
  writer : Bool
  owner : Bool
deriving Repr, DecidableEq

/-- `TokenStatus` from token.rs. -/
structure TokenStatus where
  created : Bool
  id : String
deriving Repr, DecidableEq

/-- The `Token` custom resource. -/
structure Token where
  ns : String
  name_any : String
  spec : TokenSpec
  status : Option TokenStatus
deriving Repr, DecidableEq

/-- One external call made by a reconcile/cleanup invocation, in the
order the source issues them. -/
inductive ExtCall where
  | publishEvent (reason note : String)
  | kubeGetDatabase (name : String)
  | kubeGetUser (name : String)
  | kubeGetBucket (name : String)
  | sqlExecute (server statement : String)
  | createSecret (secret : SecretRecord)
  | patchDatabaseStatus (name : String) (status : DatabaseStatus)
  | patchUserStatus (name : String) (status : UserStatus)
  | patchBucketStatus (name : String) (status : BucketStatus)
  | patchTokenStatus (name : String) (status : TokenStatus)
  | garageCreateBucket (globalAlias : String)
  | garageCreateKey (name : String)
  | garageAllowBucketKey (bucketId keyId : String) (perms : BucketPermissions)
  | garageDenyBucketKey (bucketId keyId : String) (perms : BucketPermissions)
  | garageDeleteBucket (id : String)
  | garageDeleteKey (id : String)
deriving Repr, DecidableEq

/-- Environment fixing the result of every external call a single
reconcile/cleanup invocation may perform: the kube API contents, the
registry of connected postgresql clients, the settings map, the SQL and
Garage call outcomes, and the random stream feeding password generation.
`none` / `false` / `.error` encode the call failing. -/
structure Env where
  publishOk : String → Bool
  getDatabase : String → Option Database
  getUser : String → Option User
  getBucket : String → Option Bucket
  knownServers : List String
  settingsHost : String → Option String
  executeOk : Bool
  createSecretOk : Bool
  patchOk : Bool
  rng : Nat → Fin 62
  createBucketResult : Except GarageError GarageBucket
  createKeyResult : Except GarageError GarageKey
  allowResult : Option GarageError
  denyResult : Option GarageError
  deleteBucketResult : Option GarageError
  deleteKeyResult : Option GarageError

/-- The single-quote character used in the SQL statement strings. -/
def squote : String := String.singleton (Char.ofNat 39)

/-- The backtick character used in event notes. -/
def bt : String := String.singleton (Char.ofNat 96)

/-- The 62 characters of the `Alphanumeric` distribution of the rand
crate: upper-case letters, lower-case letters, digits. -/
def alphanumericChars : List Char :=
  "ABCDEFGHIJKLMNOPQRSTUVWXYZabcdefghijklmnopqrstuvwxyz0123456789".data

theorem alphanumericChars_length : alphanumericChars.length = 62 := rfl

/-- `Alphanumeric.sample_string(rng, len)`: draws `len` characters from
the alphanumeric alphabet using the random stream. -/
def sample_string (g : Nat → Fin 62) (len : Nat) : String :=
  String.mk ((List.range len).map (fun i =>
    alphanumericChars.get ⟨(g i).val, lt_of_lt_of_le (g i).isLt (le_of_eq alphanumericChars_length.symm)⟩))

/-- `Database::was_created` from database.rs. -/
def Database.was_created (self : Database) : Bool :=
  (self.status.map (fun s => s.created)).getD false

/-- `Database::name` from database.rs: `format!("{}_{}", namespace, name)`. -/
def Database.name (self : Database) : String :=
  self.ns ++ "_" ++ self.name_any

/-- `User::was_created` from user.rs. -/
def User.was_created (self : User) : Bool :=
  (self.status.map (fun s => s.created)).getD false

/-- `User::name` from user.rs: `format!("{}_{}", namespace, name)`. -/
def User.name (self : User) : String :=
  self.ns ++ "_" ++ self.name_any

/-- `Bucket::was_created` from bucket.rs. -/
def Bucket.was_created (self : Bucket) : Bool :=
  (self.status.map (fun s => s.created)).getD false

/-- `Bucket::get_id` from bucket.rs: the status id, or `""` when the
status is absent. -/
def Bucket.get_id (self : Bucket) : String :=
  (self.status.map (fun s => s.id)).getD ""

/-- `Token::was_created` from token.rs. -/
def Token.was_created (self : Token) : Bool :=
  (self.status.map (fun s => s.created)).getD false

/-- `Token::get_id` from token.rs: the status id, or `""` when the
status is absent. -/
def Token.get_id (self : Token) : String :=
  (self.status.map (fun s => s.id)).getD ""

/-- `Database::reconcile` from database.rs, lines 67-155. -/
def Database.reconcile (self : Database) (env : Env) :
    Outcome KubeAction × List ExtCall :=
  if self.was_created then (.ok (.requeue (5 * 60)), [])
  else
  let t1 : List ExtCall := [.publishEvent "CreationRequested"
    ("Creating database for " ++ bt ++ self.name_any ++ bt)]
  if env.publishOk "CreationRequested" = false then (.err .kubeError, t1) else
  if self.name_any = "illegal" then (.err .postgresqlIllegalDatabase, t1) else
  let t2 := t1 ++ [.kubeGetDatabase self.name_any]
  match env.getDatabase self.name_any with
  | none => (.err .kubeError, t2)
  | some database =>
    if env.knownServers.contains database.spec.server = false then
      (.err .postgresqlUnknownServer, t2) else
    let t3 := t2 ++ [.kubeGetUser database.spec.owner_ref.name]
    match env.getUser database.spec.owner_ref.name with
    | none => (.err .kubeError, t3)
    | some user =>
      match user.status with
      | none => (.panicked "User Status is not yet defined", t3)
      | some user_status =>
        if user.spec.server ≠ database.spec.server then
          (.err .postgresqlUserAndDatabaseServerNotMatching, t3) else
        let stmt := "CREATE DATABASE " ++ squote ++ database.name ++ squote ++
          " WITH OWNER " ++ squote ++ user_status.name ++ squote ++
          " CONNECTION LIMIT " ++ toString database.spec.connection_limit
        let t4 := t3 ++ [.sqlExecute database.spec.server stmt]
        if env.executeOk = false then (.err .postgresqlClientError, t4) else
        let t5 := t4 ++ [.publishEvent "CreationCompleted"
          ("Created database for " ++ bt ++ self.name_any ++ bt)]
        if env.publishOk "CreationCompleted" = false then (.err .kubeError, t5) else
        let t6 := t5 ++ [.patchDatabaseStatus self.name_any
          { created := true, name := database.name }]
        if env.patchOk = false then (.err .kubeError, t6) else
        (.ok (.requeue (5 * 60)), t6)

/-- `Database::cleanup` from database.rs, lines 157-189. -/
def Database.cleanup (self : Database) (env : Env) :
    Outcome KubeAction × List ExtCall :=
  let t1 : List ExtCall := [.publishEvent "DeleteRequested"
    ("Dropping database for " ++ bt ++ self.name_any ++ bt)]
  if env.publishOk "DeleteRequested" = false then (.err .kubeError, t1) else
  let t2 := t1 ++ [.kubeGetDatabase self.name_any]
  match env.getDatabase self.name_any with
  | none => (.err .kubeError, t2)
  | some database =>
    if env.knownServers.contains database.spec.server = false then
      (.err .postgresqlUnknownServer, t2) else
    let t3 := t2 ++ [.sqlExecute database.spec.server
      ("DROP DATABASE " ++ database.name)]
    if env.executeOk = false then (.err .postgresqlClientError, t3) else
    (.ok .awaitChange, t3)

/-- `User::reconcile` from user.rs, lines 70-172. -/
def User.reconcile (self : User) (env : Env) :
    Outcome KubeAction × List ExtCall :=
  if self.was_created then (.ok (.requeue (5 * 60)), [])
  else
  let t1 : List ExtCall := [.publishEvent "CreationRequested"
    ("Creating user for " ++ bt ++ self.name_any ++ bt)]
  if env.publishOk "CreationRequested" = false then (.err .kubeError, t1) else
  if self.name_any = "illegal" then (.err .postgresqlIllegalUser, t1) else
  let t2 := t1 ++ [.kubeGetUser self.name_any]
  match env.getUser self.name_any with
  | none => (.err .kubeError, t2)
  | some user =>
    if env.knownServers.contains user.spec.server = false then
      (.err .postgresqlUnknownServer, t2) else
    let password := sample_string env.rng 16
    let stmt := "CREATE USER " ++ user.name ++ " WITH PASSWORD " ++ squote ++
      password ++ squote ++ " CONNECTION LIMIT " ++
      toString user.spec.connection_limit
    let t3 := t2 ++ [.sqlExecute user.spec.server stmt]
    if env.executeOk = false then (.err .postgresqlClientError, t3) else
    match env.settingsHost user.spec.server with
    | none => (.panicked "no entry found for key", t3)
    | some server_host_name =>
      let secret : SecretRecord :=
        { name := user.spec.password_secret_name
          immutable := true
          ownerReferences := none
          data := [("password", password), ("username", user.name),
                   ("host", server_host_name), ("port", "5432")] }
      let t4 := t3 ++ [.createSecret secret]
      if env.createSecretOk = false then (.err .kubeError, t4) else
      let t5 := t4 ++ [.publishEvent "CreationCompleted"
        ("Created user for " ++ bt ++ self.name_any ++ bt)]
      if env.publishOk "CreationCompleted" = false then (.err .kubeError, t5) else
      let t6 := t5 ++ [.patchUserStatus self.name_any
        { created := true, name := user.name }]
      if env.patchOk = false then (.err .kubeError, t6) else
      (.ok (.requeue (5 * 60)), t6)

/-- `User::cleanup` from user.rs, lines 174-206. -/
def User.cleanup (self : User) (env : Env) :
    Outcome KubeAction × List ExtCall :=
  let t1 : List ExtCall := [.publishEvent "DeleteRequested"
    ("Dropping user for " ++ bt ++ self.name_any ++ bt)]
  if env.publishOk "DeleteRequested" = false then (.err .kubeError, t1) else
  let t2 := t1 ++ [.kubeGetUser self.name_any]
  match env.getUser self.name_any with
  | none => (.err .kubeError, t2)
  | some user =>
    if env.knownServers.contains user.spec.server = false then
      (.err .postgresqlUnknownServer, t2) else
    let t3 := t2 ++ [.sqlExecute user.spec.server
      ("DROP USER " ++ user.name)]
    if env.executeOk = false then (.err .postgresqlClientError, t3) else
    (.ok .awaitChange, t3)

/-- `GarageClient::set_bucket_permissions` from garage.rs, lines 222-244:
an AllowBucketKey call with the requested permissions, then, only when it
succeeded, a DenyBucketKey call with the same permissions. -/
def set_bucket_permissions (env : Env) (bucket_id key_id : String)
    (permissions : BucketPermissions) :
    Except GarageError Unit × List ExtCall :=
  match env.allowResult with
  | some e => (.error e, [.garageAllowBucketKey bucket_id key_id permissions])
  | none =>
    match env.denyResult with
    | some e => (.error e,
        [.garageAllowBucketKey bucket_id key_id permissions,
         .garageDenyBucketKey bucket_id key_id permissions])
    | none => (.ok (),
        [.garageAllowBucketKey bucket_id key_id permissions,
         .garageDenyBucketKey bucket_id key_id permissions])

/-- `Bucket::reconcile` from bucket.rs, lines 65-126. -/
def Bucket.reconcile (self : Bucket) (env : Env) :
    Outcome KubeAction × List ExtCall :=
  if self.was_created then (.ok (.requeue (5 * 60)), [])
  else
  let t1 : List ExtCall := [.publishEvent "CreationRequested"
    ("Creating bucket for " ++ bt ++ self.name_any ++ bt)]
  if env.publishOk "CreationRequested" = false then (.err .kubeError, t1) else
  let t2 := t1 ++ [.garageCreateBucket self.spec.name]
  match env.createBucketResult with
  | .error e => (.err (.garageClientError e), t2)
  | .ok bucket =>
    let t3 := t2 ++ [.publishEvent "CreationCompleted"
      ("Created bucket for " ++ bt ++ self.name_any ++ bt)]
    if env.publishOk "CreationCompleted" = false then (.err .kubeError, t3) else
    let t4 := t3 ++ [.patchBucketStatus self.name_any
      { id := bucket.id, created := true }]
    if env.patchOk = false then (.err .kubeError, t4) else
    (.ok (.requeue (5 * 60)), t4)

/-- `Bucket::cleanup` from bucket.rs, lines 128-152. -/
def Bucket.cleanup (self : Bucket) (env : Env) :
    Outcome KubeAction × List ExtCall :=
  let t1 : List ExtCall := [.publishEvent "DeleteRequested"
    ("Deleting bucket for " ++ bt ++ self.name_any ++ bt)]
  if env.publishOk "DeleteRequested" = false then (.err .kubeError, t1) else
  let t2 := t1 ++ [.garageDeleteBucket self.get_id]
  match env.deleteBucketResult with
  | some e => (.err (.garageClientError e), t2)
  | none => (.ok .awaitChange, t2)

/-- `Token::reconcile` from token.rs, lines 69-170. -/
def Token.reconcile (self : Token) (env : Env) :
    Outcome KubeAction × List ExtCall :=
  if self.was_created then (.ok (.requeue (5 * 60)), [])
  else
  let t1 : List ExtCall := [.publishEvent "CreationRequested"
    ("Creating token for " ++ bt ++ self.name_any ++ bt)]
  if env.publishOk "CreationRequested" = false then (.err .kubeError, t1) else
  let t2 := t1 ++ [.garageCreateKey self.spec.name]
  match env.createKeyResult with
  | .error e => (.err (.garageClientError e), t2)
  | .ok key =>
    let secret : SecretRecord :=
      { name := self.spec.tokenSecretName
        immutable := true
        ownerReferences := some [{ kind := "Token", name := self.name_any }]
        data := [("accessKeyId", key.id), ("secretAccessKey", key.secret)] }
    let t3 := t2 ++ [.createSecret secret]
    if env.createSecretOk = false then (.err .kubeError, t3) else
    let t4 := t3 ++ [.kubeGetBucket self.spec.bucketRef.name]
    match env.getBucket self.spec.bucketRef.name with
    | none => (.err .kubeError, t4)
    | some bucket =>
      let perms : BucketPermissions :=
        { read := self.spec.reader, write := self.spec.writer,
          owner := self.spec.owner }
      let sbp := set_bucket_permissions env bucket.get_id key.id perms
      let t5 := t4 ++ sbp.2
      match sbp.1 with
      | .error e => (.err (.garageClientError e), t5)
      | .ok _ =>
        let t6 := t5 ++ [.publishEvent "CreationCompleted"
          ("Created token for " ++ bt ++ self.name_any ++ bt)]
        if env.publishOk "CreationCompleted" = false then (.err .kubeError, t6) else
        let t7 := t6 ++ [.patchTokenStatus self.name_any
          { created := true, id := key.id }]
        if env.patchOk = false then (.err .kubeError, t7) else
        (.ok (.requeue (5 * 60)), t7)

/-- `Token::cleanup` from token.rs, lines 172-196. -/
def Token.cleanup (self : Token) (env : Env) :
    Outcome KubeAction × List ExtCall :=
  let t1 : List ExtCall := [.publishEvent "DeleteRequested"
    ("Deleting token for " ++ bt ++ self.name_any ++ bt)]
  if env.publishOk "DeleteRequested" = false then (.err .kubeError, t1) else
  let t2 := t1 ++ [.garageDeleteKey self.get_id]
  match env.deleteKeyResult with
  | some e => (.err (.garageClientError e), t2)
  | none => (.ok .awaitChange, t2)

/-! ## Concrete fixtures used by the witness theorems -/

/-- An environment in which every external call succeeds. -/
def envAllOk : Env where
  publishOk := fun _ => true
  getDatabase := fun _ => none
  getUser := fun _ => none
  getBucket := fun _ => none
  knownServers := ["pg1"]
  settingsHost := fun _ => some "pg1.example.com"
  executeOk := true
  createSecretOk := true
  patchOk := true
  rng := fun _ => 0
  createBucketResult := .ok { id := "xyz" }
  createKeyResult := .ok { name := "k1", id := "GK1", secret := "SK1" }
  allowResult := none
  denyResult := none
  deleteBucketResult := none
  deleteKeyResult := none

/-- A Database resource whose status records completed creation. -/
def dbCreated : Database :=
  { ns := "ns1", name_any := "db1"
    spec := { server := "pg1", connection_limit := 10, owner_ref := { name := "u1" } }
    status := some { created := true, name := "ns1_db1" } }

/-- A User resource whose status records completed creation. -/
def userCreated : User :=
  { ns := "ns1", name_any := "u1"
    spec := { server := "pg1", password_secret_name := "s1", connection_limit := 5 }
    status := some { created := true, name := "ns1_u1" } }

/-- A Bucket resource whose status records completed creation. -/
def bucketCreated : Bucket :=
  { ns := "ns1", name_any := "b1"
    spec := { name := "b1" }
    status := some { id := "xyz", created := true } }

/-- A Token resource whose status records completed creation. -/
def tokenCreated : Token :=
  { ns := "ns1", name_any := "t1"
    spec := { bucketRef := { name := "b1" }, tokenSecretName := "ts1",
              name := "t1", reader := true, writer := false, owner := false }
    status := some { created := true, id := "GK1" } }

/-- A Database resource that has not been created yet. -/
def dbFresh : Database :=
  { ns := "ns1", name_any := "db1"
    spec := { server := "pg1", connection_limit := 10, owner_ref := { name := "u1" } }
    status := none }

/-- A User resource that has not been created yet. -/
def userFresh : User :=
  { ns := "ns1", name_any := "u1"
    spec := { server := "pg1", password_secret_name := "s1", connection_limit := 5 }
    status := none }

/-- A Bucket resource that has not been created yet. -/
def bucketFresh : Bucket :=
  { ns := "ns1", name_any := "b1"
    spec := { name := "b1" }
    status := none }

/-- A Token resource that has not been created yet. -/
def tokenFresh : Token :=
  { ns := "ns1", name_any := "t1"
    spec := { bucketRef := { name := "b1" }, tokenSecretName := "ts1",
              name := "t1", reader := true, writer := false, owner := false }
    status := none }

/-! ## C2: reconcile on an already-created resource is a no-op -/

/-- C2: for every resource kind (Database, User, Bucket, Token), when
`status.created` is already true, reconcile performs zero external calls
(empty trace: no event publish, no SQL or storage call, no secret create,
no status patch) and returns converged with a 5-minute (300 s) requeue. -/
theorem c2_created_resource_reconcile_is_noop (env : Env)
    (d : Database) (u : User) (b : Bucket) (t : Token)
    (hd : d.was_created = true) (hu : u.was_created = true)
    (hb : b.was_created = true) (ht : t.was_created = true) :
    Database.reconcile d env = (.ok (.requeue (5 * 60)), []) ∧
    User.reconcile u env = (.ok (.requeue (5 * 60)), []) ∧
    Bucket.reconcile b env = (.ok (.requeue (5 * 60)), []) ∧
    Token.reconcile t env = (.ok (.requeue (5 * 60)), []) := by
  unfold Database.reconcile User.reconcile Bucket.reconcile Token.reconcile
  simp [hd, hu, hb, ht]

/-- Witness for C2 at concrete created resources in the all-ok
environment. -/
theorem c2_created_resource_reconcile_is_noop_witness :
    Database.reconcile dbCreated envAllOk = (.ok (.requeue (5 * 60)), []) ∧
    User.reconcile userCreated envAllOk = (.ok (.requeue (5 * 60)), []) ∧
    Bucket.reconcile bucketCreated envAllOk = (.ok (.requeue (5 * 60)), []) ∧
    Token.reconcile tokenCreated envAllOk = (.ok (.requeue (5 * 60)), []) :=
  c2_created_resource_reconcile_is_noop envAllOk dbCreated userCreated
    bucketCreated tokenCreated rfl rfl rfl rfl

/-! ## C7: set_bucket_permissions call sequence -/

/-- C7: `set_bucket_permissions` first calls AllowBucketKey with exactly
the requested permission triple, then calls DenyBucketKey with the same
triple; the Deny call is made if and only if the Allow call succeeded,
and the overall result is an error whenever either call fails. -/
theorem c7_set_bucket_permissions_allow_then_deny (env : Env)
    (b k : String) (p : BucketPermissions) :
    (env.allowResult = none → env.denyResult = none →
      set_bucket_permissions env b k p =
        (.ok (), [.garageAllowBucketKey b k p, .garageDenyBucketKey b k p])) ∧
    (∀ e, env.allowResult = some e →
      set_bucket_permissions env b k p =
        (.error e, [.garageAllowBucketKey b k p])) ∧
    (∀ e, env.allowResult = none → env.denyResult = some e →
      set_bucket_permissions env b k p =
        (.error e, [.garageAllowBucketKey b k p, .garageDenyBucketKey b k p])) := by
  unfold set_bucket_permissions
  refine ⟨fun ha hd => ?_, fun e ha => ?_, fun e ha hd => ?_⟩
  · simp [ha, hd]
  · simp [ha]
  · simp [ha, hd]

/-- Witness for C7 in the all-ok environment: both calls are made, in
order, with the same triple. -/
theorem c7_set_bucket_permissions_allow_then_deny_witness :
    set_bucket_permissions envAllOk "xyz" "GK1" ⟨false, true, false⟩ =
      (.ok (), [.garageAllowBucketKey "xyz" "GK1" ⟨false, true, false⟩,
                .garageDenyBucketKey "xyz" "GK1" ⟨false, true, false⟩]) :=
  (c7_set_bucket_permissions_allow_then_deny envAllOk "xyz" "GK1"
    ⟨false, true, false⟩).1 rfl rfl

/-! ## C10: cleanup with absent status deletes with the empty-string id -/

/-- C10: for a Bucket or Token whose status was never set, cleanup still
issues exactly one storage-adapter delete call, passing the empty string
as the id (`get_id` returns `""` when status is absent and cleanup calls
delete unconditionally with it). -/
theorem c10_cleanup_without_status_deletes_empty_id (env : Env)
    (b : Bucket) (t : Token)
    (hb : b.status = none) (ht : t.status = none)
    (hpub : env.publishOk "DeleteRequested" = true) :
    (Bucket.cleanup b env).2 =
      [.publishEvent "DeleteRequested"
        ("Deleting bucket for " ++ bt ++ b.name_any ++ bt),
       .garageDeleteBucket ""] ∧
    (Token.cleanup t env).2 =
      [.publishEvent "DeleteRequested"
        ("Deleting token for " ++ bt ++ t.name_any ++ bt),
       .garageDeleteKey ""] := by
  unfold Bucket.cleanup Token.cleanup Bucket.get_id Token.get_id
  constructor <;> (simp [hb, ht, hpub]; split <;> simp)

/-- Witness for C10 at concrete never-created resources. -/
theorem c10_cleanup_without_status_deletes_empty_id_witness :
    (Bucket.cleanup bucketFresh envAllOk).2 =
      [.publishEvent "DeleteRequested"
        ("Deleting bucket for " ++ bt ++ "b1" ++ bt),
       .garageDeleteBucket ""] ∧
    (Token.cleanup tokenFresh envAllOk).2 =
      [.publishEvent "DeleteRequested"
        ("Deleting token for " ++ bt ++ "t1" ++ bt),
       .garageDeleteKey ""] :=
  c10_cleanup_without_status_deletes_empty_id envAllOk bucketFresh tokenFresh
    rfl rfl rfl

/-! ## C3: backend mismatch between Database and its owning User -/

/-- C3: when the fetched Database references a User whose
`spec.server` differs from the Database's `spec.server`, reconcile
fails with `PostgresqlUserAndDatabaseServerNotMatching` and the SQL
adapter is never invoked. -/
theorem c3_server_mismatch_fails_without_sql (env : Env)
    (self d : Database) (u : User) (st : UserStatus)
    (hcr : self.was_created = false)
    (hpub : env.publishOk "CreationRequested" = true)
    (hname : self.name_any ≠ "illegal")
    (hget : env.getDatabase self.name_any = some d)
    (hsrv : d.spec.server ∈ env.knownServers)
    (huser : env.getUser d.spec.owner_ref.name = some u)
    (hst : u.status = some st)
    (hmis : u.spec.server ≠ d.spec.server) :
    (Database.reconcile self env).1 =
      .err .postgresqlUserAndDatabaseServerNotMatching ∧
    ∀ s stmt, ExtCall.sqlExecute s stmt ∉ (Database.reconcile self env).2 := by
  unfold Database.reconcile
  simp [hcr, hpub, hname, hget, hsrv, huser, hst, hmis]

/-- A User on server pg2, with a defined status. -/
def userOnPg2 : User :=
  { ns := "ns1", name_any := "u1"
    spec := { server := "pg2", password_secret_name := "s1", connection_limit := 5 }
    status := some { created := true, name := "ns1_u1" } }

/-- Environment where the Database fetch returns `dbFresh` (server pg1)
and the User fetch returns `userOnPg2` (server pg2). -/
def envMismatch : Env :=
  { envAllOk with
    getDatabase := fun _ => some dbFresh
    getUser := fun _ => some userOnPg2 }

/-- Witness for C3 at a concrete mismatching pair. -/
theorem c3_server_mismatch_fails_without_sql_witness :
    (Database.reconcile dbFresh envMismatch).1 =
      .err .postgresqlUserAndDatabaseServerNotMatching ∧
    ExtCall.sqlExecute "pg1" "x" ∉ (Database.reconcile dbFresh envMismatch).2 := by
  have h := c3_server_mismatch_fails_without_sql envMismatch dbFresh dbFresh
    userOnPg2 { created := true, name := "ns1_u1" }
    rfl rfl (by decide) rfl (by decide) rfl rfl (by decide)
  exact ⟨h.1, h.2 "pg1" "x"⟩

/-! ## C9: absent User status panics before the server-match check -/

/-- C9: when the owning User exists but its status is absent, reconcile
panics via `expect` on the status `Option` instead of returning an
error, and it does so before the backend-match check: even with
mismatching servers the outcome is the panic, not the mismatch error,
and no SQL call is made. -/
theorem c9_missing_user_status_panics (env : Env)
    (self d : Database) (u : User)
    (hcr : self.was_created = false)
    (hpub : env.publishOk "CreationRequested" = true)
    (hname : self.name_any ≠ "illegal")
    (hget : env.getDatabase self.name_any = some d)
    (hsrv : d.spec.server ∈ env.knownServers)
    (huser : env.getUser d.spec.owner_ref.name = some u)
    (hst : u.status = none)
    (hmis : u.spec.server ≠ d.spec.server) :
    (Database.reconcile self env).1 =
      .panicked "User Status is not yet defined" ∧
    (Database.reconcile self env).1 ≠
      .err .postgresqlUserAndDatabaseServerNotMatching ∧
    ∀ s stmt, ExtCall.sqlExecute s stmt ∉ (Database.reconcile self env).2 := by
  unfold Database.reconcile
  simp [hcr, hpub, hname, hget, hsrv, huser, hst, hmis]

/-- A User on server pg2 whose status is absent. -/
def userNoStatusPg2 : User :=
  { ns := "ns1", name_any := "u1"
    spec := { server := "pg2", password_secret_name := "s1", connection_limit := 5 }
    status := none }

/-- Environment where the User fetch returns a status-less user on a
mismatching server. -/
def envUserNoStatus : Env :=
  { envAllOk with
    getDatabase := fun _ => some dbFresh
    getUser := fun _ => some userNoStatusPg2 }

/-- Witness for C9 at a concrete status-less user. -/
theorem c9_missing_user_status_panics_witness :
    (Database.reconcile dbFresh envUserNoStatus).1 =
      .panicked "User Status is not yet defined" ∧
    ExtCall.sqlExecute "pg1" "x" ∉ (Database.reconcile dbFresh envUserNoStatus).2 := by
  have h := c9_missing_user_status_panics envUserNoStatus dbFresh dbFresh
    userNoStatusPg2 rfl rfl (by decide) rfl (by decide) rfl rfl (by decide)
  exact ⟨h.1, h.2.2 "pg1" "x"⟩

/-! ## C1: the Database status patch is gated on user lookup and DDL -/

/-- Helper: a Database status patch in the reconcile trace implies the
database fetch, the owning-user lookup and the SQL execute all
succeeded. -/
theorem database_patch_requires_success (env : Env) (self : Database)
    (n : String) (st : DatabaseStatus)
    (h : ExtCall.patchDatabaseStatus n st ∈ (Database.reconcile self env).2) :
    (∃ d u, env.getDatabase self.name_any = some d ∧
      env.getUser d.spec.owner_ref.name = some u) ∧
    env.executeOk = true := by
  unfold Database.reconcile at h
  repeat' split at h
  all_goals simp_all

/-- Helper: when the owning-user lookup fails, reconcile returns an
error and emits no status patch. -/
theorem database_user_lookup_failure (env : Env) (self d : Database)
    (hcr : self.was_created = false)
    (hget : env.getDatabase self.name_any = some d)
    (huser : env.getUser d.spec.owner_ref.name = none) :
    (∃ e, (Database.reconcile self env).1 = Outcome.err e) ∧
    ∀ n st, ExtCall.patchDatabaseStatus n st ∉ (Database.reconcile self env).2 := by
  unfold Database.reconcile
  repeat' split
  all_goals simp_all

/-- Helper: when the SQL execute fails, any run that reached the execute
returns an error, and no run emits a status patch. -/
theorem database_execute_failure (env : Env) (self : Database)
    (hexec : env.executeOk = false) :
    (∀ s stmt, ExtCall.sqlExecute s stmt ∈ (Database.reconcile self env).2 →
      ∃ e, (Database.reconcile self env).1 = Outcome.err e) ∧
    ∀ n st, ExtCall.patchDatabaseStatus n st ∉ (Database.reconcile self env).2 := by
  unfold Database.reconcile
  repeat' split
  all_goals simp_all

/-- C1: the patch setting `status.created = true` is issued only after
the owning-user lookup and the CREATE DATABASE call both succeeded; when
the user lookup fails, or the DDL call is made and fails, reconcile
returns an error and no status patch is emitted (so `status.created`
stays unset). -/
theorem c1_status_patch_only_after_user_and_ddl (env : Env) (self : Database) :
    (∀ n st, ExtCall.patchDatabaseStatus n st ∈ (Database.reconcile self env).2 →
      (∃ d u, env.getDatabase self.name_any = some d ∧
        env.getUser d.spec.owner_ref.name = some u) ∧
      env.executeOk = true) ∧
    (∀ d, self.was_created = false →
      env.getDatabase self.name_any = some d →
      env.getUser d.spec.owner_ref.name = none →
      (∃ e, (Database.reconcile self env).1 = Outcome.err e) ∧
      ∀ n st, ExtCall.patchDatabaseStatus n st ∉ (Database.reconcile self env).2) ∧
    (env.executeOk = false →
      (∀ s stmt, ExtCall.sqlExecute s stmt ∈ (Database.reconcile self env).2 →
        ∃ e, (Database.reconcile self env).1 = Outcome.err e) ∧
      ∀ n st, ExtCall.patchDatabaseStatus n st ∉ (Database.reconcile self env).2) :=
  ⟨fun n st h => database_patch_requires_success env self n st h,
   fun d hcr hget huser => database_user_lookup_failure env self d hcr hget huser,
   fun hexec => database_execute_failure env self hexec⟩

/-- Environment in which the owning-user lookup fails. -/
def envUserMissing : Env :=
  { envAllOk with getDatabase := fun _ => some dbFresh, getUser := fun _ => none }

/-- Witness for C1: with the user lookup failing, reconcile of a fresh
Database errors and emits no status patch. -/
theorem c1_status_patch_only_after_user_and_ddl_witness :
    (∃ e, (Database.reconcile dbFresh envUserMissing).1 = Outcome.err e) ∧
    ExtCall.patchDatabaseStatus "db1" { created := true, name := "ns1_db1" } ∉
      (Database.reconcile dbFresh envUserMissing).2 := by
  have h := (c1_status_patch_only_after_user_and_ddl envUserMissing dbFresh).2.1
    dbFresh rfl rfl rfl
  exact ⟨h.1, h.2 _ _⟩

/-! ## C6: the "illegal" name guard exists only for Database and User -/

/-- A not-yet-created Bucket resource named "illegal". -/
def bucketIllegal : Bucket :=
  { ns := "ns1", name_any := "illegal", spec := { name := "illegal" },
    status := none }

/-- Counterexample to C6 as stated: a not-yet-created Bucket named
"illegal" does not fail with an IllegalIdentifier error — it reconciles
successfully and the storage adapter is invoked. -/
theorem c6_bucket_illegal_not_rejected :
    (Bucket.reconcile bucketIllegal envAllOk).1 = .ok (.requeue (5 * 60)) ∧
    ExtCall.garageCreateBucket "illegal" ∈ (Bucket.reconcile bucketIllegal envAllOk).2 := by
  decide

/-- C6 amended: the guard exists only for the postgresql kinds — a
not-yet-created Database or User named "illegal" fails reconcile with
its dedicated illegal-identifier error (after the creation-requested
event publish) and no SQL or storage call is made; Bucket and Token
have no such guard. -/
theorem c6_illegal_name_guard_database_and_user (env : Env)
    (d : Database) (u : User)
    (hd : d.was_created = false) (hu : u.was_created = false)
    (hdn : d.name_any = "illegal") (hun : u.name_any = "illegal")
    (hpub : env.publishOk "CreationRequested" = true) :
    (Database.reconcile d env).1 = .err .postgresqlIllegalDatabase ∧
    (∀ s stmt, ExtCall.sqlExecute s stmt ∉ (Database.reconcile d env).2) ∧
    (User.reconcile u env).1 = .err .postgresqlIllegalUser ∧
    (∀ s stmt, ExtCall.sqlExecute s stmt ∉ (User.reconcile u env).2) := by
  unfold Database.reconcile User.reconcile
  simp [hd, hu, hdn, hun, hpub]

/-- A not-yet-created Database resource named "illegal". -/
def dbIllegal : Database :=
  { ns := "ns1", name_any := "illegal"
    spec := { server := "pg1", connection_limit := 10, owner_ref := { name := "u1" } }
    status := none }

/-- A not-yet-created User resource named "illegal". -/
def userIllegal : User :=
  { ns := "ns1", name_any := "illegal"
    spec := { server := "pg1", password_secret_name := "s1", connection_limit := 5 }
    status := none }

/-- Witness for the amended C6 at concrete "illegal" resources. -/
theorem c6_illegal_name_guard_database_and_user_witness :
    (Database.reconcile dbIllegal envAllOk).1 = .err .postgresqlIllegalDatabase ∧
    (User.reconcile userIllegal envAllOk).1 = .err .postgresqlIllegalUser := by
  have h := c6_illegal_name_guard_database_and_user envAllOk dbIllegal userIllegal
    rfl rfl rfl rfl rfl
  exact ⟨h.1, h.2.2.1⟩

/-! ## C8: successful creation of a User resource -/

/-- The generated password always has exactly the requested length. -/
theorem sample_string_length (g : Nat → Fin 62) (len : Nat) :
    (sample_string g len).length = len := by
  unfold sample_string
  simp [String.length]

/-- Every character of the generated password is alphanumeric. -/
theorem sample_string_alphanumeric (g : Nat → Fin 62) (len : Nat) :
    ∀ c ∈ (sample_string g len).data, c ∈ alphanumericChars := by
  unfold sample_string
  intro c hc
  simp only [String.mk, List.mem_map, List.mem_range] at hc
  obtain ⟨i, _, rfl⟩ := hc
  exact List.get_mem _ _ _

/-- C8: a successful creation run for a not-yet-created User issues one
CREATE USER statement embedding the resolved username and the spec
connection limit, then creates the secret named by
`spec.password_secret_name` holding the generated password together
with the resolved username, the backend host and the fixed port
"5432", and finally patches the status to created; the password is a
16-character alphanumeric string. -/
theorem c8_user_creation_success_run (env : Env) (self : User) (host : String)
    (hcr : self.was_created = false)
    (hname : self.name_any ≠ "illegal")
    (hpub1 : env.publishOk "CreationRequested" = true)
    (hget : env.getUser self.name_any = some self)
    (hsrv : self.spec.server ∈ env.knownServers)
    (hhost : env.settingsHost self.spec.server = some host)
    (hexec : env.executeOk = true)
    (hsec : env.createSecretOk = true)
    (hpub2 : env.publishOk "CreationCompleted" = true)
    (hpatch : env.patchOk = true) :
    User.reconcile self env =
      (.ok (.requeue (5 * 60)),
       [.publishEvent "CreationRequested"
          ("Creating user for " ++ bt ++ self.name_any ++ bt),
        .kubeGetUser self.name_any,
        .sqlExecute self.spec.server
          ("CREATE USER " ++ self.name ++ " WITH PASSWORD " ++ squote ++
           sample_string env.rng 16 ++ squote ++ " CONNECTION LIMIT " ++
           toString self.spec.connection_limit),
        .createSecret
          { name := self.spec.password_secret_name
            immutable := true
            ownerReferences := none
            data := [("password", sample_string env.rng 16),
                     ("username", self.name), ("host", host),
                     ("port", "5432")] },
        .publishEvent "CreationCompleted"
          ("Created user for " ++ bt ++ self.name_any ++ bt),
        .patchUserStatus self.name_any { created := true, name := self.name }]) ∧
    (sample_string env.rng 16).length = 16 ∧
    ∀ c ∈ (sample_string env.rng 16).data, c ∈ alphanumericChars := by
  refine ⟨?_, sample_string_length env.rng 16, sample_string_alphanumeric env.rng 16⟩
  unfold User.reconcile
  simp [hcr, hname, hpub1, hget, hsrv, hhost, hexec, hsec, hpub2, hpatch]

/-- Environment in which the kube User fetch returns `userFresh`. -/
def envUserSelf : Env :=
  { envAllOk with getUser := fun _ => some userFresh }

/-- Witness for C8 at the concrete fresh user in the all-ok
environment. -/
theorem c8_user_creation_success_run_witness :
    User.reconcile userFresh envUserSelf =
      (.ok (.requeue (5 * 60)),
       [.publishEvent "CreationRequested"
          ("Creating user for " ++ bt ++ "u1" ++ bt),
        .kubeGetUser "u1",
        .sqlExecute "pg1"
          ("CREATE USER " ++ "ns1_u1" ++ " WITH PASSWORD " ++ squote ++
           sample_string envUserSelf.rng 16 ++ squote ++
           " CONNECTION LIMIT " ++ toString (5 : Int)),
        .createSecret
          { name := "s1"
            immutable := true
            ownerReferences := none
            data := [("password", sample_string envUserSelf.rng 16),
                     ("username", "ns1_u1"), ("host", "pg1.example.com"),
                     ("port", "5432")] },
        .publishEvent "CreationCompleted"
          ("Created user for " ++ bt ++ "u1" ++ bt),
        .patchUserStatus "u1" { created := true, name := "ns1_u1" }]) ∧
    (sample_string envUserSelf.rng 16).length = 16 := by
  have h := c8_user_creation_success_run envUserSelf userFresh "pg1.example.com"
    rfl (by decide) rfl rfl (by decide) rfl rfl rfl rfl rfl
  exact ⟨h.1, h.2.1⟩

/-! ## C4: the resolved database identifier namespace_name -/

/-- Splitting a character list around a separator that occurs in neither
left part is unambiguous. -/
theorem sep_append_inj (sep : Char) :
    ∀ (l1 l2 r1 r2 : List Char), sep ∉ l1 → sep ∉ l2 →
      l1 ++ sep :: r1 = l2 ++ sep :: r2 → l1 = l2 ∧ r1 = r2 := by
  intro l1
  induction l1 with
  | nil =>
    intro l2 r1 r2 _ h2 heq
    cases l2 with
    | nil => simpa using heq
    | cons c l2 =>
      simp only [List.nil_append, List.cons_append, List.cons.injEq] at heq
      obtain ⟨h, _⟩ := heq
      subst h
      exact absurd (List.mem_cons_self _ _) h2
  | cons c l1 ih =>
    intro l2 r1 r2 h1 h2 heq
    cases l2 with
    | nil =>
      simp only [List.cons_append, List.nil_append, List.cons.injEq] at heq
      obtain ⟨h, _⟩ := heq
      subst h
      exact absurd (List.mem_cons_self _ _) h1
    | cons c2 l2 =>
      simp only [List.cons_append, List.cons.injEq] at heq
      obtain ⟨rfl, heq2⟩ := heq
      have h1x : sep ∉ l1 := fun hx => h1 (List.mem_cons_of_mem _ hx)
      have h2x : sep ∉ l2 := fun hx => h2 (List.mem_cons_of_mem _ hx)
      obtain ⟨he1, he2⟩ := ih l2 r1 r2 h1x h2x heq2
      exact ⟨by rw [he1], he2⟩

/-- The resolved identifier, as raw character data: the namespace, an
underscore, the resource name. -/
theorem database_name_data (d : Database) :
    (Database.name d).data = d.ns.data ++ '_' :: d.name_any.data := by
  unfold Database.name
  rw [String.data_append, String.data_append]
  simp

/-- Counterexample to C4 as stated: derivation of the resolved
identifier is not injective over arbitrary pairs — the distinct pairs
(namespace "a_b", name "c") and (namespace "a", name "b_c") resolve to
the same identifier. -/
theorem c4_resolved_name_not_injective :
    Database.name { ns := "a_b", name_any := "c",
                    spec := dbFresh.spec, status := none } =
      Database.name { ns := "a", name_any := "b_c",
                      spec := dbFresh.spec, status := none } ∧
    (("a_b", "c") : String × String) ≠ ("a", "b_c") := by
  decide

/-- C4 amended: the resolved identifier is a deterministic function of
(namespace, resource name), and it is injective on resources whose
namespaces contain no underscore (Kubernetes namespace names cannot
contain one); without that restriction distinct pairs can collide. -/
theorem c4_resolved_name_deterministic_injective (d1 d2 : Database)
    (h1 : '_' ∉ d1.ns.data) (h2 : '_' ∉ d2.ns.data) :
    (d1.ns = d2.ns → d1.name_any = d2.name_any →
      Database.name d1 = Database.name d2) ∧
    (Database.name d1 = Database.name d2 →
      d1.ns = d2.ns ∧ d1.name_any = d2.name_any) := by
  constructor
  · intro hns hn
    unfold Database.name
    rw [hns, hn]
  · intro heq
    have hd := congrArg String.data heq
    rw [database_name_data, database_name_data] at hd
    obtain ⟨e1, e2⟩ := sep_append_inj '_' d1.ns.data d2.ns.data _ _ h1 h2 hd
    exact ⟨String.ext e1, String.ext e2⟩

/-- Witness for the amended C4 at concrete resources. -/
theorem c4_resolved_name_deterministic_injective_witness :
    Database.name dbFresh = Database.name dbCreated ∧
    dbFresh.ns = dbCreated.ns := by
  have h := c4_resolved_name_deterministic_injective dbFresh dbCreated
    (by decide) (by decide)
  exact ⟨h.1 rfl rfl, (h.2 (by decide)).1⟩

/-! ## C5: credential secrets -/

/-- The secrets created (via the create-only secret call) in a trace. -/
def createdSecrets (tr : List ExtCall) : List SecretRecord :=
  tr.filterMap fun c =>
    match c with
    | .createSecret s => some s
    | _ => none

/-- Counterexample to C5 as stated: the password secret created by a
successful User reconcile carries no owner reference (user.rs builds its
ObjectMeta without owner_references), so not every credential secret
carries one. -/
theorem c5_user_secret_lacks_owner_reference :
    (createdSecrets (User.reconcile userFresh envUserSelf).2).map
      (fun s => s.ownerReferences) = [none] := by
  decide

set_option maxHeartbeats 2000000 in
/-- C5 amended: every credential secret is created by a single
create-only call per reconcile (at most one create in any trace) as an
immutable record; the Token access-key secret carries an owner reference
to its owning Token, but the User password secret carries no owner
reference. -/
theorem c5_secret_creation_immutable_once (env : Env) (u : User) (t : Token) :
    (∀ s, s ∈ createdSecrets (User.reconcile u env).2 →
      s.immutable = true ∧ s.ownerReferences = none) ∧
    (createdSecrets (User.reconcile u env).2).length ≤ 1 ∧
    (∀ s, s ∈ createdSecrets (Token.reconcile t env).2 →
      s.immutable = true ∧
      s.ownerReferences = some [{ kind := "Token", name := t.name_any }]) ∧
    (createdSecrets (Token.reconcile t env).2).length ≤ 1 := by
  refine ⟨?_, ?_, ?_, ?_⟩ <;>
  · try unfold User.reconcile
    try unfold Token.reconcile set_bucket_permissions
    repeat' split
    all_goals simp_all [createdSecrets]


/-- Environment where the kube fetches return the fresh user and the
created bucket. -/
def envKube : Env :=
  { envAllOk with
    getUser := fun _ => some userFresh
    getBucket := fun _ => some bucketCreated }

/-- The password secret record created for `userFresh` under `envKube`. -/
def userFreshSecret : SecretRecord :=
  { name := "s1", immutable := true, ownerReferences := none
    data := [("password", "AAAAAAAAAAAAAAAA"), ("username", "ns1_u1"),
             ("host", "pg1.example.com"), ("port", "5432")] }

/-- The access-key secret record created for `tokenFresh` under
`envKube`. -/
def tokenFreshSecret : SecretRecord :=
  { name := "ts1", immutable := true
    ownerReferences := some [{ kind := "Token", name := "t1" }]
    data := [("accessKeyId", "GK1"), ("secretAccessKey", "SK1")] }

/-- Witness for the amended C5 at the concrete created secrets. -/
theorem c5_secret_creation_immutable_once_witness :
    (userFreshSecret.immutable = true ∧
     userFreshSecret.ownerReferences = none) ∧
    (tokenFreshSecret.immutable = true ∧
     tokenFreshSecret.ownerReferences =
       some [{ kind := "Token", name := "t1" }]) := by
  have h := c5_secret_creation_immutable_once envKube userFresh tokenFresh
  exact ⟨h.1 userFreshSecret (by decide), h.2.2.1 tokenFreshSecret (by decide)⟩
